import Mathlib

/-!
Verification of the vue3-auth session plugin (`src/auth.ts`, second/current
revision of the file: `getByPath`, `createAuthInstance`, `createAuth`).

The embedding models:
- JSON-like response payloads (`Value`) and the dotted-path extractor
  `getByPath` (including JavaScript's `String.split` semantics);
- the storage adapter `storageAPI` over its four concrete backends
  (localStorage, sessionStorage, cookieStore API, `document.cookie` fallback);
- the token store (`token` / `refreshToken` fields, `isAuthenticated`,
  `setToken`, `setRefreshToken`, `clearToken`, `clearRefreshToken`,
  `getToken`), hydration at construction;
- the session controller (`login`, `logout`, `tryRefreshToken`) and the
  module-global `_redirectAfterLogin`;
- the router guard installed by `createAuth` (`router.beforeEach`).

External collaborators (axios transport, the router, the browser storage
backends) are modelled as oracles / explicit state: an HTTP call's outcome is
an `Except Unit Value` argument (`.error` = rejected promise, `.ok d` =
resolved response with body `d`); `router.push` appends to an event log;
the browser stores are key/value maps inside `Backends`.
-/

namespace VueAuth

/-- JSON-ish JavaScript values, as far as the plugin inspects them:
`undefined`, `null`, booleans, strings and objects (association lists of
string keys; JavaScript objects have no duplicate keys, lookup takes the
first match). Arrays and numbers are never traversed by the plugin's
extraction paths in any claim and are omitted. -/
inductive Value where
  | undefV : Value
  | nullV : Value
  | boolV : Bool → Value
  | strV : String → Value
  | objV : List (String × Value) → Value

/-- JavaScript truthiness of a `Value`: `undefined`, `null`, `false` and
`""` are falsy; every other modelled value is truthy. -/
def truthy : Value → Bool
  | .undefV => false
  | .nullV => false
  | .boolV b => b
  | .strV s => !(s = "")
  | .objV _ => true

/-- Truthiness of a nullable slot (`string | null` fields such as
`auth.token`): `null` is falsy, otherwise the value's own truthiness. -/
def truthyOpt : Option Value → Bool
  | none => false
  | some v => truthy v

/-- JavaScript string coercion, used where a value reaches a storage write
(`localStorage.setItem` etc. coerce their argument to a string). -/
def jsToString : Value → String
  | .undefV => "undefined"
  | .nullV => "null"
  | .boolV true => "true"
  | .boolV false => "false"
  | .strV s => s
  | .objV _ => "[object Object]"

/-- One step of JavaScript `String.prototype.split(sep)` for a non-empty
separator, on character lists. `skip` counts separator characters still to
be consumed after a match; `acc` is the current chunk (reversed). Mirrors
JS: `"".split(sep) = [""]`, `"a.b".split(".") = ["a","b"]`,
`"k=a=b".split("=") = ["k","a","b"]`, `"a; ".split("; ") = ["a",""]`. -/
def splitSkip (sep : List Char) : Nat → List Char → List Char → List (List Char)
  | _, acc, [] => [acc.reverse]
  | n+1, acc, _ :: rest => splitSkip sep n acc rest
  | 0, acc, c :: rest =>
    if sep.isPrefixOf (c :: rest) then
      acc.reverse :: splitSkip sep (sep.length - 1) [] rest
    else
      splitSkip sep 0 (c :: acc) rest

/-- JavaScript `s.split(sep)` for the non-empty separators the plugin uses
(`'.'`, `'; '`, `'='`). -/
def jsSplit (sep : String) (s : String) : List String :=
  (splitSkip sep.toList 0 [] s.toList).map (fun cs => String.mk cs)

/-- JavaScript `acc?.[part]`: optional chaining returns `undefined` on
`null`/`undefined`; property access on an object is key lookup, `undefined`
when the key is absent; property access on the other modelled values yields
`undefined`. -/
def objGet : Value → String → Value
  | .objV fields, part =>
    match fields.find? (fun kv => kv.1 = part) with
    | some kv => kv.2
    | none => .undefV
  | _, _ => .undefV

/-- Function `getByPath(obj, path)` from `src/auth.ts`:
`path.split('.').reduce((acc, part) => acc?.[part], obj)`. -/
def getByPath (obj : Value) (path : String) : Value :=
  (jsSplit "." path).foldl objGet obj

example : getByPath (.objV [("result", .objV [("data", .objV [("jwt", .strV "abc123")])])]) "result" =
    .objV [("data", .objV [("jwt", .strV "abc123")])] := by rfl

example : getByPath (.objV [("data", .objV [("jwt", .strV "abc123")])]) "data.jwt" = .strV "abc123" := by rfl

example : getByPath (.objV [("token", .strV "x")]) "" = .undefV := by rfl

example : jsSplit "; " "a=1; b=2" = ["a=1", "b=2"] := by rfl

example : jsSplit "=" "k=a=b" = ["k", "a", "b"] := by rfl

/-! ## Storage adapter (`storageAPI`) -/

/-- The concrete backend `storageAPI` dispatches on: `options.storage` is
`'local' | 'session' | 'cookie'` and, for cookies, the code further branches
on whether the asynchronous `cookieStore` API is available in `window`. -/
inductive StorageBackend where
  | localB : StorageBackend
  | sessionB : StorageBackend
  | cookieApiB : StorageBackend
  | cookieDocB : StorageBackend
deriving DecidableEq

/-- The browser-side key/value stores the adapter can touch: `localStorage`,
`sessionStorage` and the cookie jar (shared by the `cookieStore` API and
`document.cookie`). Each is an association list without duplicate keys. -/
structure Backends where
  localS : List (String × String)
  sessionS : List (String × String)
  cookieJar : List (String × String)

/-- Association-list lookup (browser `getItem` / cookie lookup by name). -/
def assocGet (l : List (String × String)) (k : String) : Option String :=
  match l with
  | [] => none
  | (k', v) :: rest => if k' = k then some v else assocGet rest k

/-- Association-list update: overwrite the key in place or append it. -/
def assocSet (l : List (String × String)) (k v : String) : List (String × String) :=
  match l with
  | [] => [(k, v)]
  | (k', v') :: rest => if k' = k then (k, v) :: rest else (k', v') :: assocSet rest k v

/-- Association-list removal (browser `removeItem` / cookie deletion). -/
def assocRemove (l : List (String × String)) (k : String) : List (String × String) :=
  match l with
  | [] => []
  | (k', v') :: rest => if k' = k then assocRemove rest k else (k', v') :: assocRemove rest k

/-- Join chunks with a separator; serializes the cookie jar the way the
browser renders `document.cookie` (`"k1=v1; k2=v2"`). -/
def joinSep (sep : List Char) : List (List Char) → List Char
  | [] => []
  | [x] => x
  | x :: xs => x ++ sep ++ joinSep sep xs

/-- The browser's rendering of `document.cookie` for a given jar. -/
def docCookieString (jar : List (String × String)) : List Char :=
  joinSep ("; ".toList) (jar.map (fun kv => kv.1.toList ++ ['='] ++ kv.2.toList))

/-- The `document.cookie` read fallback of `storageAPI.get`:
`document.cookie.split('; ').find(row => row.startsWith(key + '='))?.split('=')[1] || null`.
A row value containing `'='` is truncated at the first `'='` by `[1]`, and an
empty result is coerced to `null` by `|| null`. -/
def docCookieGet (jar : List (String × String)) (key : String) : Option String :=
  let rows := splitSkip ("; ".toList) 0 [] (docCookieString jar)
  match rows.find? (fun row => (key.toList ++ ['=']).isPrefixOf row) with
  | none => none
  | some row =>
    match splitSkip ['='] 0 [] row with
    | _ :: v :: _ => if v = [] then none else some (String.mk v)
    | _ => none

/-- The `document.cookie` write fallback of `storageAPI.set`: assigning
`` `${key}=${value}; Path=/; SameSite=Strict;...` `` makes the browser store
cookie `key` with value = the characters up to the first `';'` of `value`
(everything after a `';'` is parsed as cookie attributes). -/
def docCookieSet (jar : List (String × String)) (key value : String) : List (String × String) :=
  assocSet jar key (String.mk (value.toList.takeWhile (fun c => !(c = ';'))))

/-- Models `storageAPI.get`. The `cookieStore` branch returns `cookie?.value || null`,
so an empty cookie value reads back as `null`. -/
def storageGet (b : StorageBackend) (bs : Backends) (key : String) : Option String :=
  match b with
  | .localB => assocGet bs.localS key
  | .sessionB => assocGet bs.sessionS key
  | .cookieApiB =>
    match assocGet bs.cookieJar key with
    | some v => if v = "" then none else some v
    | none => none
  | .cookieDocB => docCookieGet bs.cookieJar key

/-- Models `storageAPI.set`. The `cookieStore.set` call is an external API modelled
as an exact write of the value under the key. -/
def storageSet (b : StorageBackend) (bs : Backends) (key value : String) : Backends :=
  match b with
  | .localB => { bs with localS := assocSet bs.localS key value }
  | .sessionB => { bs with sessionS := assocSet bs.sessionS key value }
  | .cookieApiB => { bs with cookieJar := assocSet bs.cookieJar key value }
  | .cookieDocB => { bs with cookieJar := docCookieSet bs.cookieJar key value }

/-- Models `storageAPI.remove`. The expired-cookie write of the `document.cookie`
fallback deletes the cookie in the browser's jar. -/
def storageRemove (b : StorageBackend) (bs : Backends) (key : String) : Backends :=
  match b with
  | .localB => { bs with localS := assocRemove bs.localS key }
  | .sessionB => { bs with sessionS := assocRemove bs.sessionS key }
  | .cookieApiB => { bs with cookieJar := assocRemove bs.cookieJar key }
  | .cookieDocB => { bs with cookieJar := assocRemove bs.cookieJar key }

/-! ## Token store, session controller and guard state -/

/-- The resolved configuration of `createAuthInstance` / `createAuth`, after
the `||` / `??` defaulting at lines 222-234 (e.g. `tokenPath` is
`options.tokenPath || 'token'`). `loginDataKey` is `options.login?.dataKey`,
which has no default. `hasRouter` records whether `options.router` was
supplied; `backend` is the resolved storage backend. -/
structure AuthConfig where
  tokenKey : String
  refreshTokenKey : String
  loginDataKey : Option String
  tokenPath : String
  refreshTokenPath : String
  useRefreshToken : Bool
  defaultRedirect : String
  hasRouter : Bool
  backend : StorageBackend

/-- The in-memory token slots of the `auth` object
(`token: string | null`, `refreshToken: string | null`; both can in fact
receive any extracted value, hence `Option Value` with `none` = `null`). -/
structure AuthState where
  token : Option Value
  refreshToken : Option Value

/-- The whole observable state: the auth instance's memory, the browser
stores, the module-global `_redirectAfterLogin`, plus two event logs for the
external collaborators — `pushed` records every `router.push(target)` and
`httpCalls` counts every HTTP request issued. -/
structure World where
  auth : AuthState
  backends : Backends
  pendingRedirect : Option String
  pushed : List String
  httpCalls : Nat

/-- Models `auth.isAuthenticated()`: `!!auth.token`. -/
def isAuthenticated (w : World) : Bool :=
  truthyOpt w.auth.token

/-- Models `auth.getToken()`: the in-memory access token, no storage round-trip. -/
def getToken (w : World) : Option Value :=
  w.auth.token

/-- Record one outbound HTTP request on the transport collaborator. -/
def incHttp (w : World) : World :=
  { w with httpCalls := w.httpCalls + 1 }

/-- Record one `router.push(target)`. -/
def pushRoute (w : World) (target : String) : World :=
  { w with pushed := w.pushed ++ [target] }

/-- Models `auth.setToken(token)`: set the in-memory slot, mirror to storage
(the storage write coerces the value to a string). -/
def setTokenW (c : AuthConfig) (w : World) (v : Value) : World :=
  { w with
    auth := { w.auth with token := some v }
    backends := storageSet c.backend w.backends c.tokenKey (jsToString v) }

/-- Models `auth.setRefreshToken(token)`: no-op unless refresh mode is enabled. -/
def setRefreshTokenW (c : AuthConfig) (w : World) (v : Value) : World :=
  if c.useRefreshToken then
    { w with
      auth := { w.auth with refreshToken := some v }
      backends := storageSet c.backend w.backends c.refreshTokenKey (jsToString v) }
  else w

/-- Models `auth.clearToken()`. -/
def clearTokenW (c : AuthConfig) (w : World) : World :=
  { w with
    auth := { w.auth with token := none }
    backends := storageRemove c.backend w.backends c.tokenKey }

/-- Models `auth.clearRefreshToken()`: no-op unless refresh mode is enabled. -/
def clearRefreshTokenW (c : AuthConfig) (w : World) : World :=
  if c.useRefreshToken then
    { w with
      auth := { w.auth with refreshToken := none }
      backends := storageRemove c.backend w.backends c.refreshTokenKey }
  else w

/-- Models `auth.logout()`: `clearToken()` then `clearRefreshToken()`. -/
def logoutW (c : AuthConfig) (w : World) : World :=
  clearRefreshTokenW c (clearTokenW c w)

/-- JavaScript `x || d` on a nullable string: `null` and `""` fall back. -/
def jsOrS (x : Option String) (d : String) : String :=
  match x with
  | some s => if s = "" then d else s
  | none => d

/-- The payload step of `login`:
`loginDataKey ? getByPath(res.data, loginDataKey) : res.data`
(a present-but-empty `dataKey` is falsy, so the raw body is used). -/
def loginPayload (c : AuthConfig) (data : Value) : Value :=
  match c.loginDataKey with
  | some k => if k = "" then data else getByPath data k
  | none => data

/-- Models `auth.login(credentials)` after its HTTP post resolved with body `data`
(a rejected post propagates to the caller before any of this runs, leaving
the state untouched apart from the attempted request). Extracts the payload
via the login `dataKey`, installs the access token when the value at
`tokenPath` is truthy, installs the refresh token when refresh mode is
enabled and the value at `refreshTokenPath` is truthy, then — if a router is
configured — pushes `_redirectAfterLogin || defaultRedirect`, clears
`_redirectAfterLogin`, and returns the raw `res.data`. -/
def login (c : AuthConfig) (w : World) (data : Value) : World × Value :=
  let w1 := incHttp w
  let payload := loginPayload c data
  let jwt := getByPath payload c.tokenPath
  let w2 := if truthy jwt then setTokenW c w1 jwt else w1
  let w3 :=
    if c.useRefreshToken then
      let refresh := getByPath payload c.refreshTokenPath
      if truthy refresh then setRefreshTokenW c w2 refresh else w2
    else w2
  if c.hasRouter then
    let target := jsOrS w3.pendingRedirect c.defaultRedirect
    (pushRoute { w3 with pendingRedirect := none } target, data)
  else (w3, data)

/-- Models `auth.tryRefreshToken()`, with the refresh endpoint's outcome supplied
as an oracle (`.error` = the awaited post threw, `.ok data` = it resolved
with body `data`). Returns `false` without touching the transport when
refresh mode is disabled or `auth.refreshToken` is falsy; otherwise posts
and either installs the token at `tokenPath` (returning `true`), returns
`false` on a truthy-token-less body, or runs `logout()` and returns `false`
when the post threw. -/
def tryRefreshToken (c : AuthConfig) (w : World) (res : Except Unit Value) : World × Bool :=
  if !c.useRefreshToken || !truthyOpt w.auth.refreshToken then (w, false)
  else
    let w1 := incHttp w
    match res with
    | .error _ => (logoutW c w1, false)
    | .ok data =>
      let newToken := getByPath data c.tokenPath
      if truthy newToken then (setTokenW c w1 newToken, true) else (w1, false)

/-- The route information the guard consults: the two metadata flags, the
optional per-route redirect override (`meta.redirectTo`) and the target's
`fullPath`. An absent flag is the falsy `undefined`, i.e. `false` here. -/
structure RouteMeta where
  requiresAuth : Bool
  guestOnly : Bool
  redirectTo : Option String
  fullPath : String

/-- The guard's redirect target:
`meta.redirectTo || options.defaultRedirect || '/dashboard'`
(`c.defaultRedirect` already carries the `|| '/dashboard'` resolution, which
is identical at both sites). -/
def resolveRedirect (c : AuthConfig) (r : RouteMeta) : String :=
  jsOrS r.redirectTo c.defaultRedirect

/-- What the guard does with the transition: `next()` or `next({ path })`. -/
inductive GuardDecision where
  | proceed : GuardDecision
  | redirect : String → GuardDecision
deriving DecidableEq

/-- The `router.beforeEach` guard installed by `createAuth` (only when a
router is configured). On a requires-auth route while unauthenticated it
awaits `tryRefreshToken` (whose HTTP outcome is the `refreshRes` oracle);
a failed refresh records `to.fullPath` in `_redirectAfterLogin` and
redirects. Otherwise a guest-only route redirects when authenticated, and
every remaining transition proceeds. -/
def beforeEach (c : AuthConfig) (w : World) (r : RouteMeta) (refreshRes : Except Unit Value) :
    World × GuardDecision :=
  let redirectTo := resolveRedirect c r
  if r.requiresAuth && !(isAuthenticated w) then
    match tryRefreshToken c w refreshRes with
    | (w1, false) => ({ w1 with pendingRedirect := some r.fullPath }, .redirect redirectTo)
    | (w1, true) =>
      if r.guestOnly && isAuthenticated w1 then (w1, .redirect redirectTo) else (w1, .proceed)
  else
    if r.guestOnly && isAuthenticated w then (w, .redirect redirectTo) else (w, .proceed)

/-- The asynchronous hydration kicked off at the end of
`createAuthInstance`: `auth.token` is loaded from storage under `tokenKey`,
and `auth.refreshToken` under `refreshTokenKey` only in refresh mode. The
loaded values are the stored strings (or `null`). -/
def hydrate (c : AuthConfig) (bs : Backends) : AuthState :=
  { token := (storageGet c.backend bs c.tokenKey).map .strV
    refreshToken :=
      if c.useRefreshToken then (storageGet c.backend bs c.refreshTokenKey).map .strV
      else none }

/-! ## Concrete fixtures used by witnesses and counterexamples -/

/-- A fresh set of empty browser stores. -/
def emptyBackends : Backends :=
  { localS := [], sessionS := [], cookieJar := [] }

/-- A fresh world: no tokens, empty stores, no pending redirect, no events. -/
def w0 : World :=
  { auth := { token := none, refreshToken := none }
    backends := emptyBackends
    pendingRedirect := none
    pushed := []
    httpCalls := 0 }

/-- The all-defaults configuration of `createAuthInstance {}` (storage
defaults to `'session'`), without a router. -/
def c0 : AuthConfig :=
  { tokenKey := "jwt_token"
    refreshTokenKey := "refresh_token"
    loginDataKey := none
    tokenPath := "token"
    refreshTokenPath := "refresh_token"
    useRefreshToken := false
    defaultRedirect := "/dashboard"
    hasRouter := false
    backend := .sessionB }

/-! ## Helper lemmas -/

/-- `setRefreshTokenW` never touches the access-token slot. -/
theorem token_setRefreshTokenW (c : AuthConfig) (w : World) (v : Value) :
    (setRefreshTokenW c w v).auth.token = w.auth.token := by
  unfold setRefreshTokenW
  split <;> rfl

/-- Updating a key makes it readable: the freshly written value wins. -/
theorem assocGet_assocSet (l : List (String × String)) (k v : String) :
    assocGet (assocSet l k v) k = some v := by
  induction l with
  | nil => simp [assocSet, assocGet]
  | cons hd tl ih =>
    obtain ⟨k', v'⟩ := hd
    by_cases h : k' = k <;> simp [assocSet, assocGet, h, ih]

/-! ## C1 -/

/-- C1: when the login HTTP request succeeds and the response holds a
(non-empty string) token at the configured path — after the optional
`login.dataKey` payload extraction — `login` installs exactly that token:
afterwards `isAuthenticated()` is `true` and `getToken()` returns it. -/
theorem login_installs_extracted_token (c : AuthConfig) (w : World) (data : Value) (s : String)
    (hs : ¬ s = "")
    (h : getByPath (loginPayload c data) c.tokenPath = .strV s) :
    getToken (login c w data).1 = some (.strV s) ∧ isAuthenticated (login c w data).1 = true := by
  have hj : truthy (getByPath (loginPayload c data) c.tokenPath) = true := by
    rw [h]; simp [truthy, hs]
  by_cases hrt : c.useRefreshToken = true <;>
    by_cases hr : c.hasRouter = true <;>
      by_cases hrf : truthy (getByPath (loginPayload c data) c.refreshTokenPath) = true <;>
        simp [login, getToken, isAuthenticated, hj, hrt, hr, hrf, setTokenW, setRefreshTokenW,
          pushRoute, incHttp, truthyOpt] <;>
        simp [h, truthy, hs]

/-- C1 witness: config `{tokenPath: "data.jwt", login.dataKey: "result"}`
and response body `{result: {data: {jwt: "abc123"}}}` make `login()` install
the token `"abc123"`. -/
theorem login_installs_extracted_token_witness :
    getToken (login
        { c0 with loginDataKey := some "result", tokenPath := "data.jwt" } w0
        (.objV [("result", .objV [("data", .objV [("jwt", .strV "abc123")])])])).1 =
      some (.strV "abc123") ∧
    isAuthenticated (login
        { c0 with loginDataKey := some "result", tokenPath := "data.jwt" } w0
        (.objV [("result", .objV [("data", .objV [("jwt", .strV "abc123")])])])).1 = true :=
  login_installs_extracted_token _ _ _ "abc123" (by decide) (by rfl)

/-! ## C4 -/

/-- C4 counterexample: the extractor applied with the empty path does not
return the payload unchanged — `"".split('.')` is `[""]`, so `getByPath`
looks up the empty-string property and yields `undefined` on the payload
`{token: "x"}`. -/
theorem getByPath_empty_path_cex :
    getByPath (.objV [("token", .strV "x")]) "" = .undefV ∧
    ¬ getByPath (.objV [("token", .strV "x")]) "" = .objV [("token", .strV "x")] := by
  refine ⟨rfl, fun h => ?_⟩
  have h' : Value.undefV = Value.objV [("token", .strV "x")] := h
  exact Value.noConfusion h'

/-- C4 amended: with the empty path, `getByPath` returns the payload's
property named by the empty string (`undefined` whenever the payload is not
an object carrying a `""` key), rather than the payload itself. -/
theorem getByPath_empty_path (v : Value) :
    getByPath v "" = objGet v "" := by
  have hsplit : jsSplit "." "" = [""] := by decide
  unfold getByPath
  rw [hsplit]
  rfl

/-! ## C5 -/

/-- C5 counterexample: `setToken("")` stores the empty string — a non-null
access token — yet `isAuthenticated()` is `false`, because the code tests
`!!auth.token` (JavaScript truthiness), not null-ness. -/
theorem isAuthenticated_empty_token_cex :
    (setTokenW c0 w0 (.strV "")).auth.token = some (.strV "") ∧
    isAuthenticated (setTokenW c0 w0 (.strV "")) = false :=
  ⟨rfl, rfl⟩

/-- C5 amended: `isAuthenticated()` is `true` iff the stored access token is
non-null *and truthy* (for string tokens: non-empty); in particular, after
`setToken(t)` with any non-empty `t`, `isAuthenticated()` is `true`. -/
theorem isAuthenticated_iff_truthy_token (c : AuthConfig) (w : World) (t : String)
    (ht : ¬ t = "") :
    isAuthenticated (setTokenW c w (.strV t)) = true ∧
    (isAuthenticated w = true ↔ ∃ v, w.auth.token = some v ∧ truthy v = true) := by
  constructor
  · simp [isAuthenticated, setTokenW, truthyOpt, truthy, ht]
  · unfold isAuthenticated truthyOpt
    cases hw : w.auth.token with
    | none => simp
    | some v => simp

/-- C5 amended witness: after `setToken("tok")` on a fresh session,
`isAuthenticated()` is `true`, and on the fresh session the truthiness
characterisation holds. -/
theorem isAuthenticated_iff_truthy_token_witness :
    isAuthenticated (setTokenW c0 w0 (.strV "tok")) = true ∧
    (isAuthenticated w0 = true ↔ ∃ v, w0.auth.token = some v ∧ truthy v = true) :=
  isAuthenticated_iff_truthy_token c0 w0 "tok" (by decide)

/-! ## C9 -/

/-- C9: `tryRefreshToken()` with refresh mode disabled, or with no refresh
token held, returns `false`, leaves the whole state (tokens, storage,
pending redirect) unchanged, and issues no HTTP request (the returned world
is exactly the input world, so the request counter is untouched). -/
theorem tryRefreshToken_disabled_noop (c : AuthConfig) (w : World) (res : Except Unit Value)
    (h : c.useRefreshToken = false ∨ w.auth.refreshToken = none) :
    tryRefreshToken c w res = (w, false) := by
  unfold tryRefreshToken
  rcases h with h | h
  · simp [h]
  · simp [h, truthyOpt]

/-- C9 witness: with `useRefreshToken: false` (the default config) a refresh
attempt against a fresh session returns `false` and changes nothing. -/
theorem tryRefreshToken_disabled_noop_witness :
    tryRefreshToken c0 w0 (.ok (.objV [("token", .strV "t")])) = (w0, false) :=
  tryRefreshToken_disabled_noop c0 w0 _ (Or.inl rfl)

/-! ## C2 -/

/-- A refresh-mode configuration and a world holding refresh token `"r"`,
used by the C2 and C6 developments. -/
def cRef : AuthConfig :=
  { c0 with useRefreshToken := true }

/-- A fresh world that holds the refresh token `"r"` but no access token. -/
def wRef : World :=
  { w0 with auth := { token := none, refreshToken := some (.strV "r") } }

/-- C2 counterexample: with refresh mode on and refresh token `"r"` held, a
refresh call whose HTTP request *succeeds* but whose body carries no token at
`tokenPath` fails to install an access token and returns `false`, yet does
NOT perform `logout()`: the refresh token is still held afterwards. -/
theorem tryRefreshToken_no_logout_cex :
    (tryRefreshToken cRef wRef (.ok (.objV []))).2 = false ∧
    (tryRefreshToken cRef wRef (.ok (.objV []))).1.auth.refreshToken = some (.strV "r") :=
  ⟨rfl, rfl⟩

/-- C2 amended: with refresh mode enabled and a refresh token held,
`tryRefreshToken` (a) on a *thrown* HTTP failure performs a full `logout()`
(both tokens cleared) and returns `false`; (b) on a successful response with
a (non-empty string) token at `tokenPath` installs it and returns `true`;
(c) on a successful response without a truthy token at `tokenPath` returns
`false` leaving the session state unchanged — no logout. -/
theorem tryRefreshToken_outcomes (c : AuthConfig) (w : World) (dataT dataM : Value) (s : String)
    (h1 : c.useRefreshToken = true)
    (h2 : truthyOpt w.auth.refreshToken = true)
    (hs : ¬ s = "")
    (hT : getByPath dataT c.tokenPath = .strV s)
    (hM : truthy (getByPath dataM c.tokenPath) = false) :
    ((tryRefreshToken c w (.error ())).1.auth.token = none ∧
      (tryRefreshToken c w (.error ())).1.auth.refreshToken = none ∧
      (tryRefreshToken c w (.error ())).2 = false) ∧
    ((tryRefreshToken c w (.ok dataT)).1.auth.token = some (.strV s) ∧
      (tryRefreshToken c w (.ok dataT)).2 = true) ∧
    ((tryRefreshToken c w (.ok dataM)).1.auth = w.auth ∧
      (tryRefreshToken c w (.ok dataM)).2 = false) := by
  have hjT : truthy (getByPath dataT c.tokenPath) = true := by
    rw [hT]; simp [truthy, hs]
  refine ⟨⟨?_, ?_, ?_⟩, ⟨?_, ?_⟩, ⟨?_, ?_⟩⟩ <;>
    simp [tryRefreshToken, h1, h2, hjT, hM, hT, logoutW, clearTokenW, clearRefreshTokenW,
      setTokenW, incHttp] <;>
    simp [truthy, hs]

/-- C2 amended witness: concrete refresh calls on a session holding refresh
token `"r"` — a thrown request logs the session out, a body
`{token: "t2"}` installs `"t2"`, and an empty body `{}` leaves the state
untouched. -/
theorem tryRefreshToken_outcomes_witness :
    ((tryRefreshToken cRef wRef (.error ())).1.auth.token = none ∧
      (tryRefreshToken cRef wRef (.error ())).1.auth.refreshToken = none ∧
      (tryRefreshToken cRef wRef (.error ())).2 = false) ∧
    ((tryRefreshToken cRef wRef (.ok (.objV [("token", .strV "t2")]))).1.auth.token =
        some (.strV "t2") ∧
      (tryRefreshToken cRef wRef (.ok (.objV [("token", .strV "t2")]))).2 = true) ∧
    ((tryRefreshToken cRef wRef (.ok (.objV [("other", .strV "x")]))).1.auth = wRef.auth ∧
      (tryRefreshToken cRef wRef (.ok (.objV [("other", .strV "x")]))).2 = false) :=
  tryRefreshToken_outcomes cRef wRef (.objV [("token", .strV "t2")]) (.objV [("other", .strV "x")])
    "t2" rfl rfl (by decide) (by rfl) (by rfl)

/-! ## C6 -/

/-- C6 counterexample: a successful login response with no token at
`tokenPath` but a refresh token at `refreshTokenPath` (refresh mode on)
leaves the access token alone yet *changes* the Token Store: the refresh
token goes from `null` to `"r"`. -/
theorem login_missing_token_updates_refresh_cex :
    truthy (getByPath (loginPayload cRef (.objV [("refresh_token", .strV "r")])) cRef.tokenPath)
        = false ∧
    (login cRef w0 (.objV [("refresh_token", .strV "r")])).1.auth.refreshToken =
      some (.strV "r") ∧
    w0.auth.refreshToken = none :=
  ⟨rfl, rfl, rfl⟩

/-- C6 amended: when the login HTTP request succeeds but the response holds
no truthy token at the configured path, the access token (memory and its
storage key are written only through `setToken`) is unchanged and `login`
still returns the raw response body; moreover the *whole* Token Store state
(both tokens and storage) is unchanged provided refresh mode is off or the
response also lacks a truthy refresh token at `refreshTokenPath` — otherwise
the refresh token is updated. -/
theorem login_missing_token_frame (c : AuthConfig) (w : World) (data : Value)
    (hmiss : truthy (getByPath (loginPayload c data) c.tokenPath) = false) :
    (login c w data).1.auth.token = w.auth.token ∧
    (login c w data).2 = data ∧
    ((c.useRefreshToken = false ∨
        truthy (getByPath (loginPayload c data) c.refreshTokenPath) = false) →
      (login c w data).1.auth = w.auth ∧ (login c w data).1.backends = w.backends) := by
  refine ⟨?_, ?_, fun hr => ⟨?_, ?_⟩⟩ <;>
    [skip; skip;
      (rcases hr with hr | hr); (rcases hr with hr | hr)] <;>
    by_cases hrt : c.useRefreshToken = true <;>
      by_cases hro : c.hasRouter = true <;>
        by_cases hrf : truthy (getByPath (loginPayload c data) c.refreshTokenPath) = true <;>
          simp_all [login, hmiss, setRefreshTokenW, pushRoute, incHttp]

/-- C6 amended witness: a login answering `{}` on the default config leaves
the fresh session's state fully unchanged and returns `{}`. -/
theorem login_missing_token_frame_witness :
    (login c0 w0 (.objV [])).1.auth.token = w0.auth.token ∧
    (login c0 w0 (.objV [])).2 = .objV [] ∧
    ((login c0 w0 (.objV [])).1.auth = w0.auth ∧
      (login c0 w0 (.objV [])).1.backends = w0.backends) :=
  ⟨(login_missing_token_frame c0 w0 (.objV []) rfl).1,
    (login_missing_token_frame c0 w0 (.objV []) rfl).2.1,
    (login_missing_token_frame c0 w0 (.objV []) rfl).2.2 (Or.inl rfl)⟩

/-! ## C7 -/

/-- C7 counterexample: on the `document.cookie` fallback backend, storing the
token `"a=b"` and hydrating a fresh store over the same adapter yields
`"a"`, not `"a=b"` — the read splits the cookie string on `'='` and keeps
only the first segment of the value. -/
theorem storage_round_trip_cex :
    (hydrate { c0 with backend := .cookieDocB }
        (setTokenW { c0 with backend := .cookieDocB } w0 (.strV "a=b")).backends).token =
      some (.strV "a") ∧
    ¬ (hydrate { c0 with backend := .cookieDocB }
        (setTokenW { c0 with backend := .cookieDocB } w0 (.strV "a=b")).backends).token =
      some (.strV "a=b") := by
  refine ⟨rfl, fun h => ?_⟩
  have h' : (some (Value.strV "a") : Option Value) = some (Value.strV "a=b") := h
  have h2 : Value.strV "a" = Value.strV "a=b" := by injection h'
  have h3 : ("a" : String) = "a=b" := by injection h2
  exact absurd h3 (by decide)

/-- C7 amended: the `setToken` / fresh-hydration round-trip is exact for the
localStorage and sessionStorage backends (for every prior state and every
token); the cookie backend can lose information (empty values read back as
`null` via `|| null`, and the `document.cookie` fallback truncates values at
their first `'='`). -/
theorem storage_round_trip_local_session (c : AuthConfig) (w : World) (t : String)
    (hb : c.backend = .localB ∨ c.backend = .sessionB) :
    (hydrate c (setTokenW c w (.strV t)).backends).token = some (.strV t) := by
  rcases hb with hb | hb <;>
    simp [hydrate, setTokenW, storageGet, storageSet, jsToString, hb, assocGet_assocSet]

/-- C7 amended witness: on the default (`session`) backend, storing `"tok"`
and hydrating a fresh store yields `"tok"` again. -/
theorem storage_round_trip_local_session_witness :
    (hydrate c0 (setTokenW c0 w0 (.strV "tok")).backends).token = some (.strV "tok") :=
  storage_round_trip_local_session c0 w0 "tok" (Or.inr rfl)

/-! ## C10 / C3 shared helper -/

/-- Router effects of a successful `login`, independent of the response
body: when a router is configured, `login` pushes
`_redirectAfterLogin || defaultRedirect` and clears `_redirectAfterLogin`,
no matter whether a token was installed. -/
theorem login_router_effects (c : AuthConfig) (w : World) (data : Value)
    (hr : c.hasRouter = true) :
    (login c w data).1.pushed = w.pushed ++ [jsOrS w.pendingRedirect c.defaultRedirect] ∧
    (login c w data).1.pendingRedirect = none := by
  by_cases h1 : truthy (getByPath (loginPayload c data) c.tokenPath) = true <;>
    by_cases h2 : c.useRefreshToken = true <;>
      by_cases h3 : truthy (getByPath (loginPayload c data) c.refreshTokenPath) = true <;>
        simp [login, h1, h2, h3, hr, setTokenW, setRefreshTokenW, pushRoute, incHttp]

/-! ## C10 -/

/-- C10: whenever the login HTTP request succeeds and a router is
configured, `login` performs the post-login navigation
(`_redirectAfterLogin || defaultRedirect`) and clears the pending redirect —
unconditionally on whether the response carried a token or
`isAuthenticated()` became true (the theorem holds for every response body
`data`, including token-less ones). -/
theorem login_navigates_unconditionally (c : AuthConfig) (w : World) (data : Value)
    (hr : c.hasRouter = true) :
    (login c w data).1.pushed = w.pushed ++ [jsOrS w.pendingRedirect c.defaultRedirect] ∧
    (login c w data).1.pendingRedirect = none :=
  login_router_effects c w data hr

/-- The default configuration with a router attached. -/
def cR : AuthConfig :=
  { c0 with hasRouter := true }

/-- C10 witness: a login answering the token-less body `{}` still pushes the
default redirect `"/dashboard"` and clears the pending redirect. -/
theorem login_navigates_unconditionally_witness :
    (login cR w0 (.objV [])).1.pushed = ["/dashboard"] ∧
    (login cR w0 (.objV [])).1.pendingRedirect = none :=
  login_navigates_unconditionally cR w0 (.objV []) rfl

/-! ## C8 -/

/-- A route flagged both `guestOnly` and `requiresAuth`. -/
def rBoth : RouteMeta :=
  { requiresAuth := true, guestOnly := true, redirectTo := none, fullPath := "/x" }

/-- C8 counterexample: on a route whose metadata has `guestOnly: true` (and
also `requiresAuth: true`), while unauthenticated with refresh unavailable,
the guard does NOT let the transition through unchanged — the requires-auth
branch runs first and redirects to the default. -/
theorem guard_guest_only_cex :
    rBoth.guestOnly = true ∧
    isAuthenticated w0 = false ∧
    (beforeEach cR w0 rBoth (.ok (.objV []))).2 = .redirect "/dashboard" ∧
    ¬ (beforeEach cR w0 rBoth (.ok (.objV []))).2 = .proceed :=
  ⟨rfl, rfl, rfl, by decide⟩

/-- C8 amended: on a route with `guestOnly: true`, an authenticated session
is redirected to the route's override or else the configured default (the
state untouched); an unauthenticated session is allowed through unchanged
*provided* the route does not also set `requiresAuth` — when both flags are
set, the requires-auth handling runs first and may redirect instead. -/
theorem guard_guest_only (c : AuthConfig) (w : World) (r : RouteMeta) (res : Except Unit Value)
    (hg : r.guestOnly = true) :
    (isAuthenticated w = true → beforeEach c w r res = (w, .redirect (resolveRedirect c r))) ∧
    (isAuthenticated w = false → r.requiresAuth = false → beforeEach c w r res = (w, .proceed)) := by
  constructor
  · intro ha
    simp [beforeEach, hg, ha]
  · intro ha hreq
    simp [beforeEach, hg, ha, hreq]

/-- A purely guest-only route. -/
def rGuest : RouteMeta :=
  { requiresAuth := false, guestOnly := true, redirectTo := none, fullPath := "/g" }

/-- A world already holding the access token `"T"`. -/
def wAuth : World :=
  { w0 with auth := { token := some (.strV "T"), refreshToken := none } }

/-- C8 amended witness: the guest-only route redirects an authenticated
session to `"/dashboard"` and passes an unauthenticated one through. -/
theorem guard_guest_only_witness :
    beforeEach cR wAuth rGuest (.ok (.objV [])) = (wAuth, .redirect "/dashboard") ∧
    beforeEach cR w0 rGuest (.ok (.objV [])) = (w0, .proceed) :=
  ⟨(guard_guest_only cR wAuth rGuest (.ok (.objV [])) rfl).1 rfl,
    (guard_guest_only cR w0 rGuest (.ok (.objV [])) rfl).2 rfl rfl⟩

/-! ## C3 -/

/-- C3: navigating to a `requiresAuth` route while unauthenticated, with the
refresh attempt failing, makes the guard record the target's `fullPath` as
the pending redirect and redirect to the route's override or else the
configured default; the next successful `login` then navigates to that exact
recorded path (not the default) and clears the pending redirect. The
hypothesis `fullPath ≠ ""` mirrors the router contract that a route's full
path is never the empty string. -/
theorem guard_pending_redirect_login (c : AuthConfig) (w : World) (r : RouteMeta)
    (res : Except Unit Value) (data : Value)
    (hrouter : c.hasRouter = true)
    (hreq : r.requiresAuth = true)
    (hauth : isAuthenticated w = false)
    (hfail : (tryRefreshToken c w res).2 = false)
    (hfp : ¬ r.fullPath = "") :
    (beforeEach c w r res).2 = .redirect (resolveRedirect c r) ∧
    (beforeEach c w r res).1.pendingRedirect = some r.fullPath ∧
    (login c (beforeEach c w r res).1 data).1.pushed =
      (beforeEach c w r res).1.pushed ++ [r.fullPath] ∧
    (login c (beforeEach c w r res).1 data).1.pendingRedirect = none := by
  rcases hq : tryRefreshToken c w res with ⟨w1, b⟩
  have hb : b = false := by rw [hq] at hfail; exact hfail
  subst hb
  have hbe : beforeEach c w r res =
      ({ w1 with pendingRedirect := some r.fullPath }, .redirect (resolveRedirect c r)) := by
    simp [beforeEach, hreq, hauth, hq]
  rw [hbe]
  refine ⟨rfl, rfl, ?_, ?_⟩
  · have he := (login_router_effects c { w1 with pendingRedirect := some r.fullPath } data hrouter).1
    rw [he]
    simp [jsOrS, hfp]
  · exact (login_router_effects c { w1 with pendingRedirect := some r.fullPath } data hrouter).2

/-- A protected route carrying a redirect override. -/
def rProt : RouteMeta :=
  { requiresAuth := true, guestOnly := false, redirectTo := some "/login", fullPath := "/account" }

/-- C3 witness: unauthenticated navigation to `/account` (requires auth,
override `/login`, refresh unavailable) is redirected to `/login` with
`/account` recorded, and the next successful login pushes exactly
`/account` and clears the record. -/
theorem guard_pending_redirect_login_witness :
    (beforeEach cR w0 rProt (.ok (.objV []))).2 = .redirect "/login" ∧
    (beforeEach cR w0 rProt (.ok (.objV []))).1.pendingRedirect = some "/account" ∧
    (login cR (beforeEach cR w0 rProt (.ok (.objV []))).1
        (.objV [("token", .strV "z")])).1.pushed =
      (beforeEach cR w0 rProt (.ok (.objV []))).1.pushed ++ ["/account"] ∧
    (login cR (beforeEach cR w0 rProt (.ok (.objV []))).1
        (.objV [("token", .strV "z")])).1.pendingRedirect = none :=
  guard_pending_redirect_login cR w0 rProt (.ok (.objV [])) (.objV [("token", .strV "z")])
    rfl rfl rfl rfl (by decide)

end VueAuth
